import Mathlib

/-!
Verification development for the ReventX backend meeting/quota subsystem.

The Lean definitions below are a shallow embedding of the Python source:

  * `app/utils/meeting_utils.py` — `calculate_buyer_meeting_quota`,
    `calculate_seller_meeting_quota`, `batch_calculate_buyer_meeting_quota`;
  * `app/routes/meeting.py` — `create_buyer_meeting_request`,
    `create_seller_meeting_request`, `update_meeting_status`, `cancel_meeting`.

Database rows become Lean structures, the SQLAlchemy session becomes an
explicit `DB` value threaded through the handlers, query combinators
(`filter`, `filter_by`, `first`, `get`, `count`) become list operations over
the row lists (preserving row order, with `first`/`get` taking the first
match), and `datetime.now()` becomes an explicit `now : Int` POSIX-seconds
parameter.  `int(...)` conversions that can raise are modelled by
`Option`-valued results: a `none` result component models the uncaught
exception (HTTP 500); state mutations that the code commits before the
exception point are still reflected in the returned state.
-/

/-- Modelled from the spec: `app/models/models.py` (the column and enum
definitions re-exported by `app/models/__init__.py`) is not among the
sources.  Per the spec's state machine (section 4.5) and the API status
strings (`{status: "accepted"|"rejected"}`), meeting statuses are stored as
the `MeetingStatus` enum's lowercase string values listed here; assigning an
enum member to `Meeting.status` stores its value.  The quota code in
`meeting_utils.py` additionally tolerates fully-uppercase legacy rows by
always querying both spellings. -/
def meetingStatusValues : List String :=
  ["pending", "accepted", "rejected", "cancelled", "expired", "completed",
   "unscheduled_completed"]

/-- A `Meeting` row (spec section 3; `meeting_utils.py` and `meeting.py`
access exactly these columns).  `created_at` is POSIX seconds, `none`
modelling SQL NULL. -/
structure Meeting where
  id : Nat
  buyer_id : Nat
  seller_id : Nat
  requestor_id : Nat
  status : String
  created_at : Option Int
  notes : String
deriving DecidableEq

/-- A `SystemSetting` row: generic key/value configuration. -/
structure SystemSetting where
  key : String
  value : String
deriving DecidableEq

/-- A `BuyerCategory` row; `max_meetings` is a nullable integer column. -/
structure BuyerCategory where
  id : Nat
  max_meetings : Option Int
deriving DecidableEq

/-- A `StallType` row; both quota-relevant columns are nullable. -/
structure StallType where
  attendees : Option Int
  max_meetings_per_attendee : Option Int
deriving DecidableEq

/-- A `Stall` row; `stall_type_rel` is the relationship to its `StallType`
(`none` models a missing related row). -/
structure Stall where
  seller_id : Nat
  stall_type_rel : Option StallType
deriving DecidableEq

/-- The quota-relevant part of a `BuyerProfile` row. -/
structure BuyerProfile where
  user_id : Nat
  category_id : Option Nat
deriving DecidableEq

/-- A `User` row; `role` is the `UserRole` enum value string
("buyer", "seller", "admin"). -/
structure User where
  id : Nat
  role : String
deriving DecidableEq

/-- A `TimeSlot` row: `is_available` plus the back-reference (`meeting_id`)
to the occupying meeting (spec section 3; `meeting.py` lines 316-318 and
357-359 mutate exactly these two fields). -/
structure TimeSlot where
  id : Nat
  user_id : Nat
  is_available : Bool
  meeting_id : Option Nat
deriving DecidableEq

/-- The database state visible to the embedded handlers.  `next_meeting_id`
models the primary-key sequence used when a new `Meeting` row is inserted. -/
structure DB where
  meetings : List Meeting
  settings : List SystemSetting
  categories : List BuyerCategory
  stalls : List Stall
  users : List User
  time_slots : List TimeSlot
  next_meeting_id : Nat
deriving DecidableEq

/-- `SystemSetting.query.filter_by(key=k).first()`. -/
def getSetting (db : DB) (k : String) : Option SystemSetting :=
  db.settings.find? (fun s => s.key == k)

/-- `Meeting.status.in_([MeetingStatus.PENDING.value, MeetingStatus.PENDING.value.upper()])`. -/
def isPendingStatus (s : String) : Bool :=
  s == "pending" || s == "PENDING"

/-- `Meeting.status.in_([MeetingStatus.ACCEPTED.value, MeetingStatus.ACCEPTED.value.upper()])`. -/
def isAcceptedStatus (s : String) : Bool :=
  s == "accepted" || s == "ACCEPTED"

/-- Python truthiness of an optional integer id (`if buyer_profile.category_id:`):
`None` and `0` are falsy. -/
def pyTruthyOptNat : Option Nat → Bool
  | none => false
  | some n => n != 0

/-- The staleness test of the expiry sweep (`meeting_utils.py` lines 32 and 151):
`not meeting.created_at or (current_time - meeting.created_at).total_seconds() > 48 * 3600`.
A `datetime` is always truthy, so the first disjunct holds exactly for NULL. -/
def isStale (now : Int) (m : Meeting) : Bool :=
  match m.created_at with
  | none => true
  | some c => 48 * 3600 < now - c

/-- Python `str.upper()` for the ASCII status strings this code base
stores, written over the character list so that it evaluates by `decide`. -/
def pyUpper (s : String) : String :=
  String.mk (s.data.map Char.toUpper)

/-- Python `str.lower()`, same remark as `pyUpper`. -/
def pyLower (s : String) : String :=
  String.mk (s.data.map Char.toLower)

/-- CPython `int(str)`: strips surrounding whitespace, then an optional sign
followed by at least one digit; anything else raises `ValueError`, modelled
by `none`. -/
def digitsNat (cs : List Char) : Option Nat :=
  if cs.isEmpty then none
  else if cs.all Char.isDigit then
    some (cs.foldl (fun a c => a * 10 + (c.toNat - 48)) 0)
  else none

/-- See `digitsNat`; this is the signed entry point used for `int(value)`. -/
def pyInt (s : String) : Option Int :=
  match (s.data.dropWhile Char.isWhitespace).reverse.dropWhile Char.isWhitespace
      |>.reverse with
  | [] => none
  | c :: cs =>
    if c == '-' then (digitsNat cs).map (fun n => -(n : Int))
    else if c == '+' then (digitsNat cs).map (fun n => (n : Int))
    else (digitsNat (c :: cs)).map (fun n => (n : Int))

/-- Days per month, with the Gregorian leap rule (as `datetime.strptime`
validates day-of-month). -/
def daysInMonth (y m : Nat) : Nat :=
  if m == 2 then
    (if (y % 4 == 0 && y % 100 != 0) || y % 400 == 0 then 29 else 28)
  else if m == 4 || m == 6 || m == 9 || m == 11 then 30 else 31

/-- Civil day number of a Gregorian date (days since 1970-01-01); standard
days-from-civil computation, used only on `strptime`-valid dates (year at
least 1), where every intermediate quantity is a natural number. -/
def daysFromCivil (y m d : Nat) : Int :=
  let y2 : Nat := if m ≤ 2 then y - 1 else y
  let era : Nat := y2 / 400
  let yoe : Nat := y2 - era * 400
  let mp : Nat := (m + 9) % 12
  let doy : Nat := (153 * mp + 2) / 5 + d - 1
  let doe : Nat := yoe * 365 + yoe / 4 - yoe / 100 + doy
  (era * 146097 + doe : Int) - 719468

/-- Python `str.split(sep)` for a one-character separator, over character
lists (an empty input yields one empty part, as in Python). -/
def splitOnChar (c : Char) : List Char → List (List Char)
  | [] => [[]]
  | a :: rest =>
    let r := splitOnChar c rest
    if a == c then [] :: r
    else
      match r with
      | h :: t => (a :: h) :: t
      | [] => [[a]]

/-- `datetime.strptime(s, "%Y-%m-%d")`, reduced to its civil day number:
three dash-separated digit groups (at most 4-2-2 digits), month 1-12, day
valid for the month; `datetime` years start at 1.  Failure (`ValueError`)
is `none`. -/
def parseEventDate (s : String) : Option Int :=
  match splitOnChar '-' s.data with
  | [ys, ms, ds] =>
    match digitsNat ys, digitsNat ms, digitsNat ds with
    | some y, some m, some d =>
      if ys.length ≤ 4 ∧ ms.length ≤ 2 ∧ ds.length ≤ 2 ∧ 1 ≤ y ∧ 1 ≤ m ∧
          m ≤ 12 ∧ 1 ≤ d ∧ d ≤ daysInMonth y m then
        some (daysFromCivil y m d)
      else none
    | _, _, _ => none
  | _ => none

/-- `value.split('T')[0]`: the part before the first `T` (the whole string
when no `T` occurs). -/
def datePartBeforeT (s : String) : String :=
  String.mk ((splitOnChar 'T' s.data).headD [])

/-- Event duration in days (`meeting_utils.py` lines 75-93, 178-197,
276-291: identical in all three calculators): parse the date parts of the
`event_start_date`/`event_end_date` settings; on missing rows, empty values
or any parse failure default to 3; otherwise `(end - start).days + 1`. -/
def computeEventDays (db : DB) : Int :=
  match getSetting db "event_start_date", getSetting db "event_end_date" with
  | some s, some e =>
    if s.value != "" && e.value != "" then
      match parseEventDate (datePartBeforeT s.value),
            parseEventDate (datePartBeforeT e.value) with
      | some a, some b => (b - a) + 1
      | _, _ => 3
    else 3
  | _, _ => 3

/-- The buyer-side row filter `(Meeting.buyer_id == user_id) | (Meeting.requestor_id == user_id)`. -/
def buyerTouches (user_id : Nat) (m : Meeting) : Bool :=
  m.buyer_id == user_id || m.requestor_id == user_id

/-- The seller-side row filter `(Meeting.seller_id == seller_id) | (Meeting.requestor_id == seller_id)`. -/
def sellerTouches (seller_id : Nat) (m : Meeting) : Bool :=
  m.seller_id == seller_id || m.requestor_id == seller_id

/-- One row of the expiry sweep (`meeting_utils.py` lines 30-34, 149-153,
309-313): a PENDING row passing the given filter whose `created_at` is NULL
or older than 48 hours gets `status = MeetingStatus.EXPIRED`; the sweep
touches no other field and no other row. -/
def expireStale (now : Int) (touch : Meeting → Bool) (m : Meeting) : Meeting :=
  if touch m && isPendingStatus m.status && isStale now m then
    { m with status := "expired" }
  else m

/-- The `max_seller_attendees_per_day` fallback shared by all quota paths
(`meeting_utils.py` lines 69-70, 204-205, 347):
`int(setting.value) if setting else 30`. -/
def resolveFromCat (maxSetting : Option SystemSetting) (maxCat : Option Int) :
    Option Int :=
  match maxCat with
  | none =>
    (match maxSetting with
     | some s => pyInt s.value
     | none => some 30)
  | some v =>
    if v < 0 then
      (match maxSetting with
       | some s => pyInt s.value
       | none => some 30)
    else some v

/-- The category ceiling of the single-buyer calculator (`meeting_utils.py`
lines 61-65): a truthy `category_id` is looked up with
`BuyerCategory.query.get`, a missing row or falsy id yields `-1`. -/
def buyerCatMax (db : DB) (profile : BuyerProfile) : Option Int :=
  if pyTruthyOptNat profile.category_id then
    match db.categories.find? (fun c => some c.id == profile.category_id) with
    | some cat => cat.max_meetings
    | none => some (-1)
  else some (-1)

/-- The nine output fields of the buyer quota computation
(`meeting_utils.py` lines 95-121; the batch path repeats the identical
arithmetic at lines 351-377, so both calculators share this embedding). -/
structure BuyerQuota where
  buyerMeetingRequestQuota : Int
  buyerMeetingQuotaExceeded : Bool
  currentMeetingRequestCount : Nat
  remainingMeetingRequestCount : Int
  currentBuyerAcceptedMeetingCount : Nat
  buyerAllowedMeetingQuota : Int
  buyerRemainingAcceptCount : Int
  canBuyerAcceptMeetingRequest : Bool
  buyerPendingMeetingRequestCount : Nat
deriving DecidableEq

/-- The arithmetic block `meeting_utils.py` lines 95-121 (and its verbatim
copy at lines 351-377): from the per-day ceiling and the three counts to the
returned dictionary.  The buyer's allowed quota is deliberately NOT
multiplied by event days (line 96). -/
def buyerQuotaOf (maxPerDay : Int) (pending accepted active : Nat) :
    BuyerQuota :=
  let allowed : Int := maxPerDay
  let remainingAccept : Int := max 0 (allowed - (accepted : Int))
  let canAccept : Bool := decide ((accepted : Int) < allowed)
  let quota : Int := allowed * 2
  let remaining : Int := max 0 (quota - 2 * (accepted : Int) - (pending : Int))
  { buyerMeetingRequestQuota := quota
    buyerMeetingQuotaExceeded := decide (quota ≤ (active : Int))
    currentMeetingRequestCount := active
    remainingMeetingRequestCount := remaining
    currentBuyerAcceptedMeetingCount := accepted
    buyerAllowedMeetingQuota := allowed
    buyerRemainingAcceptCount := remainingAccept
    canBuyerAcceptMeetingRequest := canAccept
    buyerPendingMeetingRequestCount := pending }

/-- `calculate_buyer_meeting_quota` (`meeting_utils.py` lines 5-121).
Returns the post-sweep meeting table, the number of `db.session.commit()`
calls issued (the sweep commits once iff it expired anything), and the quota
dictionary — `none` when `int(setting.value)` raises after the sweep has
already been committed.  The event-day computation of lines 74-93 is omitted
here: its result is bound but never used on the buyer path (line 96). -/
def calculate_buyer_meeting_quota (now : Int) (db : DB) (user_id : Nat)
    (profile : BuyerProfile) : List Meeting × Nat × Option BuyerQuota :=
  let touch := buyerTouches user_id
  let swept := db.meetings.map (expireStale now touch)
  let commits : Nat :=
    if db.meetings.any
        (fun m => touch m && isPendingStatus m.status && isStale now m)
    then 1 else 0
  let pendingCount :=
    swept.countP (fun m => touch m && isPendingStatus m.status)
  let activeCount :=
    swept.countP
      (fun m => touch m && (isAcceptedStatus m.status || isPendingStatus m.status))
  let acceptedCount :=
    swept.countP (fun m => touch m && isAcceptedStatus m.status)
  match resolveFromCat (getSetting db "max_seller_attendees_per_day")
      (buyerCatMax db profile) with
  | none => (swept, commits, none)
  | some maxPerDay =>
    (swept, commits, some (buyerQuotaOf maxPerDay pendingCount acceptedCount activeCount))

/-- The nine output fields of the seller quota computation
(`meeting_utils.py` lines 240-251). -/
structure SellerQuota where
  sellerMeetingRequestQuota : Int
  sellerMeetingQuotaExceeded : Bool
  currentMeetingRequestCount : Nat
  remainingMeetingRequestCount : Int
  currentSellerAcceptedMeetingCount : Nat
  sellerAllowedMeetingQuota : Int
  sellerRemainingAcceptCount : Int
  canSellerAcceptMeetingRequest : Bool
  sellerPendingMeetingRequestCount : Nat
deriving DecidableEq

/-- The seller arithmetic block (`meeting_utils.py` lines 226-251), from the
allowed quota (already multiplied by event days) and the three counts. -/
def sellerQuotaOf (allowed : Int) (pending accepted active : Nat) :
    SellerQuota :=
  let remainingAccept : Int := max 0 (allowed - (accepted : Int))
  let canAccept : Bool := decide ((accepted : Int) < allowed)
  let quota : Int := allowed * 2
  let remaining : Int := max 0 (quota - 2 * (accepted : Int) - (pending : Int))
  { sellerMeetingRequestQuota := quota
    sellerMeetingQuotaExceeded := decide (quota ≤ (active : Int))
    currentMeetingRequestCount := active
    remainingMeetingRequestCount := remaining
    currentSellerAcceptedMeetingCount := accepted
    sellerAllowedMeetingQuota := allowed
    sellerRemainingAcceptCount := remainingAccept
    canSellerAcceptMeetingRequest := canAccept
    sellerPendingMeetingRequestCount := pending }

/-- One iteration of the per-stall loop (`meeting_utils.py` lines 211-223):
`attendees * max_meetings_per_attendee` when the stall type defines both and
the latter is non-negative; else `attendees * default` when attendees is
known; else `1 * default`. -/
def stallLoopAdd (dflt : Int) (acc : Int) (st : Stall) : Int :=
  match st.stall_type_rel with
  | some ty =>
    match ty.attendees, ty.max_meetings_per_attendee with
    | some a, some v => if 0 ≤ v then acc + a * v else acc + a * dflt
    | some a, none => acc + a * dflt
    | none, _ => acc + 1 * dflt
  | none => acc + 1 * dflt

/-- The per-attendee default (`meeting_utils.py` lines 204-205):
`int(max_meetings_setting.value) if max_meetings_setting else 30`. -/
def defaultMaxPerAttendee (db : DB) : Option Int :=
  match getSetting db "max_seller_attendees_per_day" with
  | some s => pyInt s.value
  | none => some 30

/-- `calculate_seller_meeting_quota` (`meeting_utils.py` lines 124-251).
Same shape as the buyer calculator; the seller's allowed quota IS multiplied
by the event duration (line 226).  The unused `seller_profile` argument of
the source is dropped. -/
def calculate_seller_meeting_quota (now : Int) (db : DB) (seller_id : Nat) :
    List Meeting × Nat × Option SellerQuota :=
  let touch := sellerTouches seller_id
  let swept := db.meetings.map (expireStale now touch)
  let commits : Nat :=
    if db.meetings.any
        (fun m => touch m && isPendingStatus m.status && isStale now m)
    then 1 else 0
  let pendingCount :=
    swept.countP (fun m => touch m && isPendingStatus m.status)
  let activeCount :=
    swept.countP
      (fun m => touch m && (isAcceptedStatus m.status || isPendingStatus m.status))
  let acceptedCount :=
    swept.countP (fun m => touch m && isAcceptedStatus m.status)
  let event_days := computeEventDays db
  match defaultMaxPerAttendee db with
  | none => (swept, commits, none)
  | some dflt =>
    let perDay :=
      (db.stalls.filter (fun st => st.seller_id == seller_id)).foldl
        (stallLoopAdd dflt) 0
    let allowed := event_days * perDay
    (swept, commits, some (sellerQuotaOf allowed pendingCount acceptedCount activeCount))

/-- `meeting.status.upper() if meeting.status else ''`
(`meeting_utils.py` line 329). -/
def batchStatusUpper (m : Meeting) : String :=
  if m.status == "" then "" else pyUpper m.status

/-- The category ceiling of the batch calculator (`meeting_utils.py` lines
338-343): the prefetched dictionary holds the categories whose id occurs in
`catIds`; it is keyed by the (unique) primary key, so the lookup is the
first matching row.  A truthy `category_id` not in the dictionary yields
`-1`. -/
def batchBuyerCatMax (db : DB) (catIds : List Nat) (p : BuyerProfile) :
    Option Int :=
  if pyTruthyOptNat p.category_id ∧
      ((db.categories.filter (fun c => catIds.contains c.id)).find?
        (fun c => some c.id == p.category_id)).isSome then
    match (db.categories.filter (fun c => catIds.contains c.id)).find?
        (fun c => some c.id == p.category_id) with
    | some cat => cat.max_meetings
    | none => some (-1)
  else some (-1)

/-- One iteration of the per-profile loop of the batch calculator
(`meeting_utils.py` lines 320-380): bucket the (already swept) meetings by
`buyer_id`, count by upper-cased status, resolve the ceiling, and apply the
shared arithmetic block.  `none` models the `int(...)` `ValueError`
aborting the whole request. -/
def batchBuyerStep (db : DB) (catIds : List Nat)
    (maxSetting : Option SystemSetting) (swept : List Meeting)
    (ids : List Nat) (p : BuyerProfile) : Option BuyerQuota :=
  let bucket :=
    swept.filter (fun m => ids.contains m.buyer_id && m.buyer_id == p.user_id)
  let pending := bucket.countP (fun m => batchStatusUpper m == "PENDING")
  let accepted := bucket.countP (fun m => batchStatusUpper m == "ACCEPTED")
  let active :=
    bucket.countP
      (fun m => batchStatusUpper m == "PENDING" || batchStatusUpper m == "ACCEPTED")
  match resolveFromCat maxSetting (batchBuyerCatMax db catIds p) with
  | none => none
  | some maxPerDay => some (buyerQuotaOf maxPerDay pending accepted active)

/-- The per-profile loop itself: profiles are processed in order and the
first exception aborts the request (so no result list is produced). -/
def processBuyerProfiles (db : DB) (catIds : List Nat)
    (maxSetting : Option SystemSetting) (swept : List Meeting)
    (ids : List Nat) : List BuyerProfile → Option (List BuyerQuota)
  | [] => some []
  | p :: rest =>
    match batchBuyerStep db catIds maxSetting swept ids p with
    | none => none
    | some q =>
      match processBuyerProfiles db catIds maxSetting swept ids rest with
      | none => none
      | some qs => some (q :: qs)

/-- `batch_calculate_buyer_meeting_quota` (`meeting_utils.py` lines
254-382).  A single query fetches the meetings whose `buyer_id` is among the
profiles' user ids (note: no `requestor_id` clause, unlike the single-buyer
calculator); the expiry sweep runs over exactly those rows and commits once;
each profile is then processed against the in-memory buckets.  The returned
triple mirrors the single calculator: post-sweep meeting table, commit
count, and the per-profile quota list in input order (the `quota_info`
attached to each profile). -/
def batch_calculate_buyer_meeting_quota (now : Int) (db : DB)
    (profiles : List BuyerProfile) :
    List Meeting × Nat × Option (List BuyerQuota) :=
  if profiles.isEmpty then (db.meetings, 0, some []) else
  let ids := profiles.map (fun p => p.user_id)
  let maxSetting := getSetting db "max_seller_attendees_per_day"
  let catIds :=
    profiles.filterMap
      (fun p => if pyTruthyOptNat p.category_id then p.category_id else none)
  let swept :=
    db.meetings.map (expireStale now (fun m => ids.contains m.buyer_id))
  let commits : Nat :=
    if db.meetings.any
        (fun m => ids.contains m.buyer_id && isPendingStatus m.status && isStale now m)
    then 1 else 0
  (swept, commits, processBuyerProfiles db catIds maxSetting swept ids profiles)

/-- An HTTP response reduced to what the claims mention: the status code and
the error/success message. -/
structure Resp where
  code : Nat
  msg : String
deriving DecidableEq

/-- The body of a create-meeting-request call.  `requested_id = none` models
a JSON body without the field; `some none` a present value that
`int(data['requested_id'])` cannot convert; `some (some v)` a convertible
one.  `notes` models `data.get('notes', '')`. -/
structure CreateBody where
  requested_id : Option (Option Int)
  notes : Option String
deriving DecidableEq

/-- The `meetings_enabled` gate (`meeting.py` lines 90-91 and 186-187):
`not meetings_enabled or meetings_enabled.value != 'true'` rejects, so
requests pass only when the row exists with value exactly "true". -/
def meetingsEnabled (db : DB) : Bool :=
  match getSetting db "meetings_enabled" with
  | some s => s.value == "true"
  | none => false

/-- The `Meeting` row inserted by `create_buyer_meeting_request`
(`meeting.py` lines 148-155): requestor is the buyer, status PENDING,
`created_at` set on insert. -/
def createdBuyerMeeting (now : Int) (db : DB) (buyer_id : Nat) (rid : Int)
    (body : CreateBody) : Meeting :=
  { id := db.next_meeting_id
    buyer_id := buyer_id
    seller_id := rid.toNat
    requestor_id := buyer_id
    status := "pending"
    created_at := some now
    notes := body.notes.getD "" }

/-- The `Meeting` row inserted by `create_seller_meeting_request`
(`meeting.py` lines 226-233): requestor is the seller. -/
def createdSellerMeeting (now : Int) (db : DB) (seller_id : Nat) (rid : Int)
    (body : CreateBody) : Meeting :=
  { id := db.next_meeting_id
    buyer_id := rid.toNat
    seller_id := seller_id
    requestor_id := seller_id
    status := "pending"
    created_at := some now
    notes := body.notes.getD "" }

/-- The duplicate gate of both create routes (`meeting.py` lines 134-143 and
212-221): the existing row's status, lower-cased, must be cancelled or
expired for a new request to be allowed. -/
def duplicateBlocks (m : Meeting) : Bool :=
  !(pyLower m.status == "cancelled" || pyLower m.status == "expired")

/-- `create_buyer_meeting_request` (`meeting.py` lines 73-167).  The JWT
identity (a string) is only used in ORM queries and the insert, where the
integer column coerces it, so it is taken here as the numeric `buyer_id`.
Checks in source order: required field, `meetings_enabled`, id conversion,
counter-party exists with the seller role, duplicate gate against the FIRST
meeting of the buyer/seller pair (`filter_by(...).first()`), then insert and
201. -/
def create_buyer_meeting_request (now : Int) (db : DB) (buyer_id : Nat)
    (body : CreateBody) : DB × Resp :=
  match body.requested_id with
  | none => (db, ⟨400, "Missing required field: requested_id"⟩)
  | some rid? =>
    if !(meetingsEnabled db) then
      (db, ⟨400, "Meeting requests are currently disabled"⟩)
    else
      match rid? with
      | none => (db, ⟨400, "Invalid seller ID format"⟩)
      | some rid =>
        match db.users.find? (fun u => (u.id : Int) == rid) with
        | none => (db, ⟨400, "Invalid seller"⟩)
        | some seller =>
          if seller.role != "seller" then (db, ⟨400, "Invalid seller"⟩)
          else
            let dup :=
              db.meetings.find?
                (fun m => m.buyer_id == buyer_id && (m.seller_id : Int) == rid)
            match dup with
            | some m =>
              if duplicateBlocks m then
                (db, ⟨400, "Meeting request already exists with status: " ++ m.status⟩)
              else
                ({ db with
                    meetings := db.meetings ++ [createdBuyerMeeting now db buyer_id rid body]
                    next_meeting_id := db.next_meeting_id + 1 },
                 ⟨201, "Meeting request created successfully"⟩)
            | none =>
              ({ db with
                  meetings := db.meetings ++ [createdBuyerMeeting now db buyer_id rid body]
                  next_meeting_id := db.next_meeting_id + 1 },
               ⟨201, "Meeting request created successfully"⟩)

/-- `create_seller_meeting_request` (`meeting.py` lines 169-245): the mirror
of the buyer route with the roles swapped. -/
def create_seller_meeting_request (now : Int) (db : DB) (seller_id : Nat)
    (body : CreateBody) : DB × Resp :=
  match body.requested_id with
  | none => (db, ⟨400, "Missing required field: requested_id"⟩)
  | some rid? =>
    if !(meetingsEnabled db) then
      (db, ⟨400, "Meeting requests are currently disabled"⟩)
    else
      match rid? with
      | none => (db, ⟨400, "Invalid buyer ID format"⟩)
      | some rid =>
        match db.users.find? (fun u => (u.id : Int) == rid) with
        | none => (db, ⟨400, "Invalid buyer"⟩)
        | some buyer =>
          if buyer.role != "buyer" then (db, ⟨400, "Invalid buyer"⟩)
          else
            let dup :=
              db.meetings.find?
                (fun m => (m.buyer_id : Int) == rid && m.seller_id == seller_id)
            match dup with
            | some m =>
              if duplicateBlocks m then
                (db, ⟨400, "Meeting request already exists with status: " ++ m.status⟩)
              else
                ({ db with
                    meetings := db.meetings ++ [createdSellerMeeting now db seller_id rid body]
                    next_meeting_id := db.next_meeting_id + 1 },
                 ⟨201, "Meeting request created successfully"⟩)
            | none =>
              ({ db with
                  meetings := db.meetings ++ [createdSellerMeeting now db seller_id rid body]
                  next_meeting_id := db.next_meeting_id + 1 },
               ⟨201, "Meeting request created successfully"⟩)

/-- Modelled from the spec: the slot back-reference `meeting.time_slot`
(spec section 3, "TimeSlot — is_available boolean plus back-reference to an
occupying meeting"; its relationship definition lives in the missing
`models.py`): the time slot whose `meeting_id` references the meeting. -/
def meetingTimeSlot (db : DB) (m : Meeting) : Option TimeSlot :=
  db.time_slots.find? (fun ts => ts.meeting_id == some m.id)

/-- Freeing the linked slot (`meeting.py` lines 316-318 and 357-359):
`is_available = True`, `meeting_id = None`.  The relationship is one-to-one
(keyed by the meeting's primary key), so exactly the occupying row changes. -/
def freeTimeSlotOf (db : DB) (mid : Nat) : DB :=
  { db with
    time_slots :=
      db.time_slots.map
        (fun ts =>
          if ts.meeting_id == some mid then
            { ts with is_available := true, meeting_id := none }
          else ts) }

/-- Replacing a meeting row after an in-place status mutation; `query.get`
addressed the row by its unique primary key. -/
def setMeetingStatus (db : DB) (mid : Nat) (s : String) : DB :=
  { db with
    meetings :=
      db.meetings.map (fun m => if m.id == mid then { m with status := s } else m) }

/-- `update_meeting_status` (`meeting.py` lines 248-325).  Here the source
converts the JWT identity with `int(...)` (line 253), so `user_id` is
numeric.  Source order: field present, enum-valid status, accepted/rejected
only, meeting found, user found, then for non-admins the participant check
and the requestor self-action check, then the PENDING gate, the mutation,
and — only on rejection — freeing the linked slot. -/
def update_meeting_status (db : DB) (user_id : Nat) (meeting_id : Nat)
    (body_status : Option String) : DB × Resp :=
  match body_status with
  | none => (db, ⟨400, "Missing required field: status"⟩)
  | some s =>
    if !(meetingStatusValues.contains s) then
      (db, ⟨400, "Invalid status value"⟩)
    else if !(s == "accepted" || s == "rejected") then
      (db, ⟨400, "Invalid status. Must be accepted or rejected"⟩)
    else
      match db.meetings.find? (fun m => m.id == meeting_id) with
      | none => (db, ⟨404, "Meeting not found"⟩)
      | some m =>
        match db.users.find? (fun u => u.id == user_id) with
        | none => (db, ⟨404, "User not found"⟩)
        | some user =>
          if user.role != "admin" && (m.buyer_id != user_id && m.seller_id != user_id) then
            (db, ⟨403, "You do not have permission to update this meeting"⟩)
          else if user.role != "admin" && m.requestor_id == user_id then
            (db, ⟨403, "You cannot accept or reject your own meeting request"⟩)
          else if m.status != "pending" then
            (db, ⟨400, "Cannot update meeting status. Current status: " ++ m.status⟩)
          else
            let db1 := setMeetingStatus db meeting_id s
            let db2 :=
              if s == "rejected" && (meetingTimeSlot db m).isSome then
                freeTimeSlotOf db1 m.id
              else db1
            (db2, ⟨200, "Meeting " ++ s ++ " successfully"⟩)

/-- Python `!=` between an `int` column value and the JWT identity string:
values of different types are never equal in Python, so the test is always
true.  (`auth.py` issues every token with `identity=str(user.id)`, and
`cancel_meeting`, unlike `update_meeting_status`, never converts it back.) -/
def pyIntNeStr (_n : Nat) (_s : String) : Bool :=
  true

/-- `cancel_meeting` (`meeting.py` lines 327-365).  `user_identity` is the
raw string from `get_jwt_identity()`; the permission check compares it with
`!=` against the integer `buyer_id`/`seller_id` columns in plain Python, so
it can never match (see `pyIntNeStr`).  The remainder of the handler —
cancellable-state gate, status mutation, unconditional slot freeing — is
embedded as written. -/
def cancel_meeting (db : DB) (user_identity : String) (meeting_id : Nat) :
    DB × Resp :=
  match db.meetings.find? (fun m => m.id == meeting_id) with
  | none => (db, ⟨404, "Meeting not found"⟩)
  | some m =>
    if pyIntNeStr m.buyer_id user_identity && pyIntNeStr m.seller_id user_identity then
      (db, ⟨403, "You do not have permission to cancel this meeting"⟩)
    else if !(m.status == "pending" || m.status == "accepted") then
      (db, ⟨400, "Cannot cancel meeting with status: " ++ m.status⟩)
    else
      let db1 := setMeetingStatus db meeting_id "cancelled"
      let db2 :=
        if (meetingTimeSlot db m).isSome then freeTimeSlotOf db1 m.id else db1
      (db2, ⟨200, "Meeting cancelled successfully"⟩)

/-- Claim-side restatement of the buyer per-day ceiling (C7): the category's
`max_meetings` whenever present and non-negative (zero honored), otherwise
the `max_seller_attendees_per_day` setting, defaulting to 30 when absent. -/
def specBuyerPerDayCeiling (db : DB) (profile : BuyerProfile) : Option Int :=
  match profile.category_id.bind
      (fun cid => (db.categories.find? (fun c => c.id == cid)).bind
        (fun c => c.max_meetings)) with
  | some v => if 0 ≤ v then some v else defaultMaxPerAttendee db
  | none => defaultMaxPerAttendee db

/-- Claim-side per-stall contribution (C6): `attendees * max_meetings_per_attendee`
when the stall's type defines both and the latter is non-negative; else
`attendees *` the system-wide default when only attendees is known; else
exactly 1 attendee times the default. -/
def stallContribution (dflt : Int) (st : Stall) : Int :=
  match st.stall_type_rel with
  | some ty =>
    match ty.attendees, ty.max_meetings_per_attendee with
    | some a, some v => if 0 ≤ v then a * v else a * dflt
    | some a, none => a * dflt
    | none, _ => 1 * dflt
  | none => 1 * dflt

/-- Claim-side per-day maximum for a seller (C6): the sum of the per-stall
contributions over all of the seller's stalls. -/
def specSellerMaxMeetingsPerDay (db : DB) (sid : Nat) (dflt : Int) : Int :=
  ((db.stalls.filter (fun st => st.seller_id == sid)).map
    (stallContribution dflt)).sum

/-- Claim-side staleness (C3): `created_at` is null or lies more than 48
hours before the sweep time. -/
def staleByClaim (now : Int) (m : Meeting) : Prop :=
  m.created_at = none ∨ ∃ c, m.created_at = some c ∧ 48 * 3600 < now - c

/-- Claim-side relation between a meeting row before and after one sweep
(C3): a PENDING row passing the filter that is stale becomes the same row
with status EXPIRED; every other row is untouched. -/
def sweepRel (now : Int) (touch : Meeting → Bool) (m m2 : Meeting) : Prop :=
  (m2 = { m with status := "expired" } ∧ touch m = true ∧
      isPendingStatus m.status = true ∧ staleByClaim now m) ∨
  (m2 = m ∧
    ¬(touch m = true ∧ isPendingStatus m.status = true ∧ staleByClaim now m))

/-- A status string on which the single calculator's two-spellings filter
and the batch calculator's `.upper()` comparison agree: one of the four
spellings both paths classify, or a string neither path counts. -/
def canonicalStatus (s : String) : Prop :=
  s = "pending" ∨ s = "PENDING" ∨ s = "accepted" ∨ s = "ACCEPTED" ∨
  (pyUpper s ≠ "PENDING" ∧ pyUpper s ≠ "ACCEPTED")

/-- The `max_seller_attendees_per_day` setting, when present, carries an
`int()`-convertible value (otherwise every path needing the fallback raises). -/
def maxSettingParses (db : DB) : Bool :=
  match getSetting db "max_seller_attendees_per_day" with
  | some s => (pyInt s.value).isSome
  | none => true

/-- The `meetings_enabled` row is absent or its value is not exactly "true"
(the disabled configurations of C10). -/
def meetingsSettingNotTrue (db : DB) : Bool :=
  match getSetting db "meetings_enabled" with
  | some s => s.value != "true"
  | none => true

/-- Shorthand for a meeting row with empty notes, used by the concrete
instances below. -/
def mkM (id b s r : Nat) (st : String) (ca : Option Int) : Meeting :=
  { id := id, buyer_id := b, seller_id := s, requestor_id := r, status := st,
    created_at := ca, notes := "" }

/-- The empty database. -/
def emptyDB : DB :=
  { meetings := [], settings := [], categories := [], stalls := [],
    users := [], time_slots := [], next_meeting_id := 1 }

/-- A state with one ACCEPTED meeting that names user 1 only as requestor
(buyer 2, seller 3): the single-buyer calculator counts it for user 1, the
batch calculator's `buyer_id`-only query does not. -/
def c1exDB : DB :=
  { emptyDB with
    meetings := [mkM 1 2 3 1 "accepted" (some 0)], next_meeting_id := 2 }

/-- Buyer profile of user 1 with no category. -/
def c1exP : BuyerProfile := { user_id := 1, category_id := none }

/-- A state with one ACCEPTED meeting whose buyer is also its requestor. -/
def c1wDB : DB :=
  { emptyDB with
    meetings := [mkM 1 1 3 1 "accepted" (some 0)], next_meeting_id := 2 }

/-- Buyer profile of user 1 with no category. -/
def c1wP : BuyerProfile := { user_id := 1, category_id := none }

/-- A state with one fresh PENDING and one ACCEPTED meeting of buyer 1. -/
def c2DB : DB :=
  { emptyDB with
    meetings := [mkM 1 1 3 1 "pending" (some 0), mkM 2 1 4 1 "accepted" (some 0)],
    next_meeting_id := 3 }

/-- Buyer profile of user 1 with no category. -/
def c2P : BuyerProfile := { user_id := 1, category_id := none }

/-- The quota record the calculator returns on `c2DB` (default ceiling 30). -/
def c2Q : BuyerQuota :=
  { buyerMeetingRequestQuota := 60, buyerMeetingQuotaExceeded := false,
    currentMeetingRequestCount := 2, remainingMeetingRequestCount := 57,
    currentBuyerAcceptedMeetingCount := 1, buyerAllowedMeetingQuota := 30,
    buyerRemainingAcceptCount := 29, canBuyerAcceptMeetingRequest := true,
    buyerPendingMeetingRequestCount := 1 }

/-- A state for buyer 1 with one stale PENDING meeting (48 h exceeded at
time 200000), one fresh PENDING one, and one ACCEPTED row with NULL
`created_at`. -/
def c3DB : DB :=
  { emptyDB with
    meetings := [mkM 1 1 2 1 "pending" (some 0),
                 mkM 2 1 2 1 "pending" (some 190000),
                 mkM 3 1 2 1 "accepted" none],
    next_meeting_id := 4 }

/-- Buyer profile of user 1 with no category. -/
def c3P : BuyerProfile := { user_id := 1, category_id := none }

/-- The quota record returned on `c3DB` at time 200000 (the stale row is
expired and excluded). -/
def c3Q : BuyerQuota :=
  { buyerMeetingRequestQuota := 60, buyerMeetingQuotaExceeded := false,
    currentMeetingRequestCount := 2, remainingMeetingRequestCount := 57,
    currentBuyerAcceptedMeetingCount := 1, buyerAllowedMeetingQuota := 30,
    buyerRemainingAcceptCount := 29, canBuyerAcceptMeetingRequest := true,
    buyerPendingMeetingRequestCount := 1 }

/-- A state where user 1 is an ADMIN who is the requestor of PENDING meeting
10 between buyer 2 and seller 3 (and is neither party). -/
def c4exDB : DB :=
  { emptyDB with
    users := [⟨1, "admin"⟩],
    meetings := [mkM 10 2 3 1 "pending" (some 0)], next_meeting_id := 11 }

/-- A state where buyer 2 is the requestor of their own PENDING meeting 10. -/
def c4wDB : DB :=
  { emptyDB with
    users := [⟨2, "buyer"⟩],
    meetings := [mkM 10 2 3 2 "pending" (some 0)], next_meeting_id := 11 }

/-- A state holding, for the pair buyer 2 / seller 3, first a CANCELLED
meeting and then an ACCEPTED one, with meetings enabled. -/
def c5exDB : DB :=
  { emptyDB with
    users := [⟨2, "buyer"⟩, ⟨3, "seller"⟩],
    settings := [⟨"meetings_enabled", "true"⟩],
    meetings := [mkM 1 2 3 2 "cancelled" (some 0), mkM 2 2 3 3 "accepted" (some 0)],
    next_meeting_id := 3 }

/-- A state whose only meeting for the pair buyer 2 / seller 3 is ACCEPTED,
with meetings enabled. -/
def c5wDB : DB :=
  { emptyDB with
    users := [⟨2, "buyer"⟩, ⟨3, "seller"⟩],
    settings := [⟨"meetings_enabled", "true"⟩],
    meetings := [mkM 1 2 3 2 "accepted" (some 0)], next_meeting_id := 2 }

/-- A request body asking for counter-party id 3. -/
def reqBody3 : CreateBody := { requested_id := some (some 3), notes := none }

/-- A request body asking for counter-party id 2. -/
def reqBody2 : CreateBody := { requested_id := some (some 2), notes := none }

/-- A state giving seller 9 three stalls: attendees 2 with per-attendee
ceiling 3, attendees 2 with no ceiling, and no stall type; a fourth stall
belongs to another seller. -/
def c6DB : DB :=
  { emptyDB with
    stalls := [⟨9, some ⟨some 2, some 3⟩⟩, ⟨9, some ⟨some 2, none⟩⟩,
               ⟨9, none⟩, ⟨8, some ⟨some 5, some 5⟩⟩] }

/-- The quota record returned for seller 9 on `c6DB`: per-day maximum
2*3 + 2*30 + 1*30 = 96, times the default 3 event days. -/
def c6Q : SellerQuota :=
  { sellerMeetingRequestQuota := 576, sellerMeetingQuotaExceeded := false,
    currentMeetingRequestCount := 0, remainingMeetingRequestCount := 576,
    currentSellerAcceptedMeetingCount := 0, sellerAllowedMeetingQuota := 288,
    sellerRemainingAcceptCount := 288, canSellerAcceptMeetingRequest := true,
    sellerPendingMeetingRequestCount := 0 }

/-- A state whose category 5 sets `max_meetings = 0`. -/
def c7DB : DB :=
  { emptyDB with categories := [⟨5, some 0⟩] }

/-- Buyer profile of user 1 in category 5. -/
def c7P : BuyerProfile := { user_id := 1, category_id := some 5 }

/-- The quota record returned on `c7DB`: the zero category ceiling is
honored. -/
def c7Q : BuyerQuota :=
  { buyerMeetingRequestQuota := 0, buyerMeetingQuotaExceeded := true,
    currentMeetingRequestCount := 0, remainingMeetingRequestCount := 0,
    currentBuyerAcceptedMeetingCount := 0, buyerAllowedMeetingQuota := 0,
    buyerRemainingAcceptCount := 0, canBuyerAcceptMeetingRequest := false,
    buyerPendingMeetingRequestCount := 0 }

/-- A state with PENDING meeting 5 between buyer 7 and seller 9 occupying
time slot 3 (`is_available = false`, back-reference set). -/
def c8DB : DB :=
  { emptyDB with
    users := [⟨7, "buyer"⟩, ⟨9, "seller"⟩],
    meetings := [mkM 5 7 9 7 "pending" (some 0)],
    time_slots := [⟨3, 9, false, some 5⟩], next_meeting_id := 6 }

/-- A state whose `meetings_enabled` value is "True" (capitalised, hence not
the exact string the gate requires). -/
def c10DB : DB :=
  { emptyDB with
    users := [⟨2, "buyer"⟩, ⟨3, "seller"⟩],
    settings := [⟨"meetings_enabled", "True"⟩] }

theorem calc_buyer_fst (now : Int) (db : DB) (uid : Nat) (profile : BuyerProfile) :
    (calculate_buyer_meeting_quota now db uid profile).1 =
      db.meetings.map (expireStale now (buyerTouches uid)) := by
  unfold calculate_buyer_meeting_quota
  cases resolveFromCat (getSetting db "max_seller_attendees_per_day")
      (buyerCatMax db profile) <;> rfl

theorem calc_buyer_commits (now : Int) (db : DB) (uid : Nat) (profile : BuyerProfile) :
    (calculate_buyer_meeting_quota now db uid profile).2.1 =
      if db.meetings.any
          (fun m => buyerTouches uid m && isPendingStatus m.status && isStale now m)
      then 1 else 0 := by
  unfold calculate_buyer_meeting_quota
  cases resolveFromCat (getSetting db "max_seller_attendees_per_day")
      (buyerCatMax db profile) <;> rfl

theorem calc_buyer_result (now : Int) (db : DB) (uid : Nat) (profile : BuyerProfile) :
    (calculate_buyer_meeting_quota now db uid profile).2.2 =
      match resolveFromCat (getSetting db "max_seller_attendees_per_day")
          (buyerCatMax db profile) with
      | none => none
      | some d =>
        some (buyerQuotaOf d
          ((db.meetings.map (expireStale now (buyerTouches uid))).countP
            (fun m => buyerTouches uid m && isPendingStatus m.status))
          ((db.meetings.map (expireStale now (buyerTouches uid))).countP
            (fun m => buyerTouches uid m && isAcceptedStatus m.status))
          ((db.meetings.map (expireStale now (buyerTouches uid))).countP
            (fun m => buyerTouches uid m &&
              (isAcceptedStatus m.status || isPendingStatus m.status)))) := by
  unfold calculate_buyer_meeting_quota
  cases resolveFromCat (getSetting db "max_seller_attendees_per_day")
      (buyerCatMax db profile) <;> rfl

/-- C2: for every buyer, the returned remaining request count is the clamped
formula over the returned quota, accepted and pending fields, the request
quota is twice the allowed quota, and the remaining count is never negative. -/
theorem c2_remaining_request_formula (now : Int) (db : DB) (user_id : Nat)
    (profile : BuyerProfile) (q : BuyerQuota)
    (h : (calculate_buyer_meeting_quota now db user_id profile).2.2 = some q) :
    q.buyerMeetingRequestQuota = 2 * q.buyerAllowedMeetingQuota ∧
    q.remainingMeetingRequestCount =
      max 0 (q.buyerMeetingRequestQuota -
        2 * (q.currentBuyerAcceptedMeetingCount : Int) -
        (q.buyerPendingMeetingRequestCount : Int)) ∧
    0 ≤ q.remainingMeetingRequestCount := by
  rw [calc_buyer_result] at h
  cases hr : resolveFromCat (getSetting db "max_seller_attendees_per_day")
      (buyerCatMax db profile) with
  | none => rw [hr] at h; simp at h
  | some d =>
    rw [hr] at h
    simp only [Option.some.injEq] at h
    subst h
    refine ⟨?_, ?_, ?_⟩
    · simp [buyerQuotaOf]; ring
    · simp [buyerQuotaOf]
    · simp [buyerQuotaOf]

theorem c2_witness :
    (calculate_buyer_meeting_quota 1000 c2DB 1 c2P).2.2 = some c2Q ∧
    (c2Q.buyerMeetingRequestQuota = 2 * c2Q.buyerAllowedMeetingQuota ∧
     c2Q.remainingMeetingRequestCount =
       max 0 (c2Q.buyerMeetingRequestQuota -
         2 * (c2Q.currentBuyerAcceptedMeetingCount : Int) -
         (c2Q.buyerPendingMeetingRequestCount : Int)) ∧
     0 ≤ c2Q.remainingMeetingRequestCount) :=
  ⟨by decide, c2_remaining_request_formula 1000 c2DB 1 c2P c2Q (by decide)⟩

theorem spec_ceiling_eq_resolve (db : DB) (profile : BuyerProfile)
    (hcid : profile.category_id ≠ some 0) :
    specBuyerPerDayCeiling db profile =
      resolveFromCat (getSetting db "max_seller_attendees_per_day")
        (buyerCatMax db profile) := by
  unfold specBuyerPerDayCeiling buyerCatMax
  cases hc : profile.category_id with
  | none => simp [pyTruthyOptNat, resolveFromCat, defaultMaxPerAttendee]
  | some cid =>
    have hcid0 : cid ≠ 0 := by rintro rfl; exact hcid hc
    have htr : pyTruthyOptNat (some cid) = true := by
      simp [pyTruthyOptNat, hcid0]
    simp only [htr, if_true, Option.bind_eq_bind, Option.some_bind]
    have hfind : (db.categories.find? (fun c => some c.id == some cid)) =
        db.categories.find? (fun c => c.id == cid) := rfl
    rw [hfind]
    cases hf : db.categories.find? (fun c => c.id == cid) with
    | none => simp [resolveFromCat, defaultMaxPerAttendee]
    | some cat =>
      cases hm : cat.max_meetings with
      | none => simp [hm, resolveFromCat, defaultMaxPerAttendee]
      | some v =>
        by_cases hv : v < 0
        · have hnv : ¬ (0 ≤ v) := by omega
          simp [hm, resolveFromCat, defaultMaxPerAttendee, hv, hnv]
        · have hge : 0 ≤ v := by omega
          simp [hm, resolveFromCat, hv, hge]

/-- C7: the per-day ceiling actually used is the claim-side resolution:
category `max_meetings` when present and non-negative (zero honored),
otherwise the `max_seller_attendees_per_day` setting with default 30. -/
theorem c7_buyer_ceiling_resolution (now : Int) (db : DB) (user_id : Nat)
    (profile : BuyerProfile) (q : BuyerQuota)
    (h : (calculate_buyer_meeting_quota now db user_id profile).2.2 = some q)
    (hcid : profile.category_id ≠ some 0) :
    specBuyerPerDayCeiling db profile = some q.buyerAllowedMeetingQuota := by
  rw [spec_ceiling_eq_resolve db profile hcid]
  rw [calc_buyer_result] at h
  cases hr : resolveFromCat (getSetting db "max_seller_attendees_per_day")
      (buyerCatMax db profile) with
  | none => rw [hr] at h; simp at h
  | some d =>
    rw [hr] at h
    simp only [Option.some.injEq] at h
    subst h
    simp [buyerQuotaOf]

theorem c7_witness :
    (calculate_buyer_meeting_quota 0 c7DB 1 c7P).2.2 = some c7Q ∧
    c7P.category_id ≠ some 0 ∧
    specBuyerPerDayCeiling c7DB c7P = some c7Q.buyerAllowedMeetingQuota :=
  ⟨by decide, by decide,
   c7_buyer_ceiling_resolution 0 c7DB 1 c7P c7Q (by decide) (by decide)⟩

theorem calc_seller_fst (now : Int) (db : DB) (sid : Nat) :
    (calculate_seller_meeting_quota now db sid).1 =
      db.meetings.map (expireStale now (sellerTouches sid)) := by
  unfold calculate_seller_meeting_quota
  cases defaultMaxPerAttendee db <;> rfl

theorem calc_seller_commits (now : Int) (db : DB) (sid : Nat) :
    (calculate_seller_meeting_quota now db sid).2.1 =
      if db.meetings.any
          (fun m => sellerTouches sid m && isPendingStatus m.status && isStale now m)
      then 1 else 0 := by
  unfold calculate_seller_meeting_quota
  cases defaultMaxPerAttendee db <;> rfl

theorem calc_seller_result (now : Int) (db : DB) (sid : Nat) :
    (calculate_seller_meeting_quota now db sid).2.2 =
      match defaultMaxPerAttendee db with
      | none => none
      | some dflt =>
        some (sellerQuotaOf
          (computeEventDays db *
            ((db.stalls.filter (fun st => st.seller_id == sid)).foldl
              (stallLoopAdd dflt) 0))
          ((db.meetings.map (expireStale now (sellerTouches sid))).countP
            (fun m => sellerTouches sid m && isPendingStatus m.status))
          ((db.meetings.map (expireStale now (sellerTouches sid))).countP
            (fun m => sellerTouches sid m && isAcceptedStatus m.status))
          ((db.meetings.map (expireStale now (sellerTouches sid))).countP
            (fun m => sellerTouches sid m &&
              (isAcceptedStatus m.status || isPendingStatus m.status)))) := by
  unfold calculate_seller_meeting_quota
  cases defaultMaxPerAttendee db <;> rfl

theorem stallLoopAdd_eq (dflt acc : Int) (st : Stall) :
    stallLoopAdd dflt acc st = acc + stallContribution dflt st := by
  unfold stallLoopAdd stallContribution
  cases st.stall_type_rel with
  | none => rfl
  | some ty =>
    cases hA : ty.attendees with
    | none =>
      cases hM : ty.max_meetings_per_attendee <;> simp [hA, hM]
    | some a =>
      cases hM : ty.max_meetings_per_attendee with
      | none => simp [hA, hM]
      | some v =>
        simp only [hA, hM]
        by_cases hv : 0 ≤ v
        · rw [if_pos hv, if_pos hv]
        · rw [if_neg hv, if_neg hv]

theorem stall_foldl_sum (dflt : Int) :
    ∀ (l : List Stall) (acc : Int),
      l.foldl (stallLoopAdd dflt) acc = acc + (l.map (stallContribution dflt)).sum := by
  intro l
  induction l with
  | nil => intro acc; simp
  | cons st rest ih =>
    intro acc
    simp only [List.foldl_cons, List.map_cons, List.sum_cons, stallLoopAdd_eq, ih]
    ring

/-- C6: the seller's allowed quota is the event duration times the claim-side
per-day maximum summed over the seller's stalls. -/
theorem c6_seller_quota_formula (now : Int) (db : DB) (seller_id : Nat)
    (q : SellerQuota)
    (h : (calculate_seller_meeting_quota now db seller_id).2.2 = some q) :
    ∃ dflt, defaultMaxPerAttendee db = some dflt ∧
      q.sellerAllowedMeetingQuota =
        computeEventDays db * specSellerMaxMeetingsPerDay db seller_id dflt := by
  rw [calc_seller_result] at h
  cases hr : defaultMaxPerAttendee db with
  | none => rw [hr] at h; simp at h
  | some dflt =>
    rw [hr] at h
    simp only [Option.some.injEq] at h
    subst h
    refine ⟨dflt, rfl, ?_⟩
    simp [sellerQuotaOf, specSellerMaxMeetingsPerDay, stall_foldl_sum]

theorem c6_witness :
    (calculate_seller_meeting_quota 0 c6DB 9).2.2 = some c6Q ∧
    (∃ dflt, defaultMaxPerAttendee c6DB = some dflt ∧
      c6Q.sellerAllowedMeetingQuota =
        computeEventDays c6DB * specSellerMaxMeetingsPerDay c6DB 9 dflt) :=
  ⟨by decide, c6_seller_quota_formula 0 c6DB 9 c6Q (by decide)⟩

/-- C9: an ADMIN user may accept or reject any PENDING meeting with a 200,
even as a non-participant and even as the meeting's own requestor: the
participant and requestor checks apply only to non-admin users. -/
theorem c9_admin_override (db : DB) (uid mid : Nat) (s : String)
    (u : User) (m : Meeting)
    (hu : db.users.find? (fun x => x.id == uid) = some u)
    (hrole : u.role = "admin")
    (hm : db.meetings.find? (fun x => x.id == mid) = some m)
    (hst : m.status = "pending")
    (hs : s = "accepted" ∨ s = "rejected") :
    (update_meeting_status db uid mid (some s)).2.code = 200 := by
  rcases hs with rfl | rfl <;>
    simp [update_meeting_status, meetingStatusValues, hm, hu, hrole, hst]

theorem c9_witness :
    (update_meeting_status c4exDB 1 10 (some "accepted")).2.code = 200 :=
  c9_admin_override c4exDB 1 10 "accepted" ⟨1, "admin"⟩ (mkM 10 2 3 1 "pending" (some 0))
    (by decide) (by decide) (by decide) (by decide) (Or.inl rfl)

theorem c4_counterexample :
    (mkM 10 2 3 1 "pending" (some 0)).requestor_id = 1 ∧
    (update_meeting_status c4exDB 1 10 (some "accepted")).2.code = 200 ∧
    ((update_meeting_status c4exDB 1 10 (some "accepted")).1.meetings.map
      (fun m => m.status)) = ["accepted"] := by
  refine ⟨by decide, by decide, by decide⟩

/-- C4 (amended): a NON-ADMIN user equal to the meeting's requestor gets 403
from a PUT status accepted/rejected and the database is unchanged. -/
theorem c4_requestor_forbidden_nonadmin (db : DB) (uid mid : Nat) (s : String)
    (u : User) (m : Meeting)
    (hu : db.users.find? (fun x => x.id == uid) = some u)
    (hrole : u.role ≠ "admin")
    (hm : db.meetings.find? (fun x => x.id == mid) = some m)
    (hreq : m.requestor_id = uid)
    (hs : s = "accepted" ∨ s = "rejected") :
    (update_meeting_status db uid mid (some s)).1 = db ∧
    (update_meeting_status db uid mid (some s)).2.code = 403 := by
  rcases hs with rfl | rfl <;>
  · by_cases hb : m.buyer_id = uid
    · simp [update_meeting_status, meetingStatusValues, hm, hu, hrole, hreq, hb]
    · by_cases hs2 : m.seller_id = uid
      · simp [update_meeting_status, meetingStatusValues, hm, hu, hrole, hreq, hb, hs2]
      · simp [update_meeting_status, meetingStatusValues, hm, hu, hrole, hb, hs2]

theorem c4_witness :
    (update_meeting_status c4wDB 2 10 (some "accepted")).1 = c4wDB ∧
    (update_meeting_status c4wDB 2 10 (some "accepted")).2.code = 403 :=
  c4_requestor_forbidden_nonadmin c4wDB 2 10 "accepted" ⟨2, "buyer"⟩
    (mkM 10 2 3 2 "pending" (some 0)) (by decide) (by decide) (by decide)
    (by decide) (Or.inl rfl)

/-- C10: with the `meetings_enabled` row absent or holding any value other
than exactly "true", both create routes (given a body carrying the required
field) answer 400 "Meeting requests are currently disabled" and leave the
database unchanged. -/
theorem c10_meetings_enabled_gate (now : Int) (db : DB)
    (buyer_uid seller_uid : Nat) (body body2 : CreateBody)
    (r r2 : Option Int)
    (hb : body.requested_id = some r) (hb2 : body2.requested_id = some r2)
    (hset : meetingsSettingNotTrue db = true) :
    create_buyer_meeting_request now db buyer_uid body =
      (db, ⟨400, "Meeting requests are currently disabled"⟩) ∧
    create_seller_meeting_request now db seller_uid body2 =
      (db, ⟨400, "Meeting requests are currently disabled"⟩) := by
  have hen : meetingsEnabled db = false := by
    unfold meetingsEnabled
    unfold meetingsSettingNotTrue at hset
    cases hg : getSetting db "meetings_enabled" with
    | none => rfl
    | some s =>
      rw [hg] at hset
      simpa using hset
  constructor <;>
    simp [create_buyer_meeting_request, create_seller_meeting_request, hb, hb2, hen]

theorem c10_witness :
    create_buyer_meeting_request 0 c10DB 2 reqBody3 =
      (c10DB, ⟨400, "Meeting requests are currently disabled"⟩) ∧
    create_seller_meeting_request 0 c10DB 3 reqBody2 =
      (c10DB, ⟨400, "Meeting requests are currently disabled"⟩) :=
  c10_meetings_enabled_gate 0 c10DB 2 3 reqBody3 reqBody2 (some 3) (some 2)
    (by decide) (by decide) (by decide)

/-- C8 (code bug exhibit): on `c8DB` — PENDING meeting 5 between buyer 7 and
seller 9 occupying slot 3 — the buyer's own DELETE (JWT identity "7") is
refused with 403 and the state, slot included, is untouched, because the
permission check compares the identity string against integer columns; the
seller's PUT status rejected on the same state does succeed and frees the
slot, showing the rejection half of the claim holds. -/
theorem c8_cancel_identity_bug :
    cancel_meeting c8DB "7" 5 =
      (c8DB, ⟨403, "You do not have permission to cancel this meeting"⟩) ∧
    (update_meeting_status c8DB 9 5 (some "rejected")).2.code = 200 ∧
    (update_meeting_status c8DB 9 5 (some "rejected")).1.time_slots =
      [⟨3, 9, true, none⟩] ∧
    ((update_meeting_status c8DB 9 5 (some "rejected")).1.meetings.map
      (fun m => m.status)) = ["rejected"] := by
  refine ⟨by decide, by decide, by decide, by decide⟩

theorem c5_counterexample :
    (c5exDB.meetings.map (fun m => (m.buyer_id, m.seller_id, m.status))) =
      [(2, 3, "cancelled"), (2, 3, "accepted")] ∧
    duplicateBlocks (mkM 2 2 3 3 "accepted" (some 0)) = true ∧
    (create_buyer_meeting_request 100 c5exDB 2 reqBody3).2.code = 201 ∧
    (create_buyer_meeting_request 100 c5exDB 2 reqBody3).1.meetings.length = 3 := by
  refine ⟨by decide, by decide, by decide, by decide⟩

/-- C5 (amended): under an enabled gate, a well-formed body and a valid
counter-party, the duplicate check of both create routes examines only the
FIRST meeting of the buyer/seller pair in table order: a 400 naming that
meeting's status when it is neither cancelled nor expired, and otherwise (or
when no pair meeting exists) a fresh PENDING insert with 201. -/
theorem c5_duplicate_first_match (now : Int) (db : DB)
    (buyer_uid seller_uid : Nat) (rid rid2 : Int) (body body2 : CreateBody)
    (sel buy : User)
    (hb : body.requested_id = some (some rid))
    (hb2 : body2.requested_id = some (some rid2))
    (hen : meetingsEnabled db = true)
    (hsel : db.users.find? (fun v => (v.id : Int) == rid) = some sel)
    (hselr : sel.role = "seller")
    (hbuy : db.users.find? (fun v => (v.id : Int) == rid2) = some buy)
    (hbuyr : buy.role = "buyer") :
    ((∀ m, db.meetings.find?
          (fun x => x.buyer_id == buyer_uid && ((x.seller_id : Int) == rid)) = some m →
        duplicateBlocks m = true →
        create_buyer_meeting_request now db buyer_uid body =
          (db, ⟨400, "Meeting request already exists with status: " ++ m.status⟩)) ∧
     (∀ m, db.meetings.find?
          (fun x => x.buyer_id == buyer_uid && ((x.seller_id : Int) == rid)) = some m →
        duplicateBlocks m = false →
        create_buyer_meeting_request now db buyer_uid body =
          ({ db with
             meetings := db.meetings ++ [createdBuyerMeeting now db buyer_uid rid body],
             next_meeting_id := db.next_meeting_id + 1 },
           ⟨201, "Meeting request created successfully"⟩) ∧
        (createdBuyerMeeting now db buyer_uid rid body).status = "pending") ∧
     (db.meetings.find?
          (fun x => x.buyer_id == buyer_uid && ((x.seller_id : Int) == rid)) = none →
        create_buyer_meeting_request now db buyer_uid body =
          ({ db with
             meetings := db.meetings ++ [createdBuyerMeeting now db buyer_uid rid body],
             next_meeting_id := db.next_meeting_id + 1 },
           ⟨201, "Meeting request created successfully"⟩) ∧
        (createdBuyerMeeting now db buyer_uid rid body).status = "pending")) ∧
    ((∀ m, db.meetings.find?
          (fun x => ((x.buyer_id : Int) == rid2) && x.seller_id == seller_uid) = some m →
        duplicateBlocks m = true →
        create_seller_meeting_request now db seller_uid body2 =
          (db, ⟨400, "Meeting request already exists with status: " ++ m.status⟩)) ∧
     (∀ m, db.meetings.find?
          (fun x => ((x.buyer_id : Int) == rid2) && x.seller_id == seller_uid) = some m →
        duplicateBlocks m = false →
        create_seller_meeting_request now db seller_uid body2 =
          ({ db with
             meetings := db.meetings ++ [createdSellerMeeting now db seller_uid rid2 body2],
             next_meeting_id := db.next_meeting_id + 1 },
           ⟨201, "Meeting request created successfully"⟩) ∧
        (createdSellerMeeting now db seller_uid rid2 body2).status = "pending") ∧
     (db.meetings.find?
          (fun x => ((x.buyer_id : Int) == rid2) && x.seller_id == seller_uid) = none →
        create_seller_meeting_request now db seller_uid body2 =
          ({ db with
             meetings := db.meetings ++ [createdSellerMeeting now db seller_uid rid2 body2],
             next_meeting_id := db.next_meeting_id + 1 },
           ⟨201, "Meeting request created successfully"⟩) ∧
        (createdSellerMeeting now db seller_uid rid2 body2).status = "pending")) := by
  refine ⟨⟨?_, ?_, ?_⟩, ?_, ?_, ?_⟩
  · intro m hf hdup
    simp [create_buyer_meeting_request, hb, hen, hsel, hselr, hf, hdup]
  · intro m hf hdup
    refine ⟨?_, rfl⟩
    simp [create_buyer_meeting_request, hb, hen, hsel, hselr, hf, hdup]
  · intro hf
    refine ⟨?_, rfl⟩
    simp [create_buyer_meeting_request, hb, hen, hsel, hselr, hf]
  · intro m hf hdup
    simp [create_seller_meeting_request, hb2, hen, hbuy, hbuyr, hf, hdup]
  · intro m hf hdup
    refine ⟨?_, rfl⟩
    simp [create_seller_meeting_request, hb2, hen, hbuy, hbuyr, hf, hdup]
  · intro hf
    refine ⟨?_, rfl⟩
    simp [create_seller_meeting_request, hb2, hen, hbuy, hbuyr, hf]

theorem c5_witness :
    create_buyer_meeting_request 100 c5wDB 2 reqBody3 =
      (c5wDB, ⟨400, "Meeting request already exists with status: accepted"⟩) := by
  have h := (c5_duplicate_first_match 100 c5wDB 2 3 3 2 reqBody3 reqBody2
      ⟨3, "seller"⟩ ⟨2, "buyer"⟩ (by decide) (by decide) (by decide)
      (by decide) (by decide) (by decide) (by decide)).1.1
      (mkM 1 2 3 2 "accepted" (some 0)) (by decide) (by decide)
  exact h

theorem countP_congr_mem {α : Type} (p q : α → Bool) :
    ∀ (l : List α), (∀ a ∈ l, p a = q a) → l.countP p = l.countP q := by
  intro l
  induction l with
  | nil => intro _; rfl
  | cons a t ih =>
    intro h
    simp only [List.countP_cons, h a (by simp), ih (fun x hx => h x (by simp [hx]))]

theorem expireStale_buyer_id (now : Int) (t : Meeting → Bool) (m : Meeting) :
    (expireStale now t m).buyer_id = m.buyer_id := by
  unfold expireStale; split <;> rfl

theorem expireStale_seller_id (now : Int) (t : Meeting → Bool) (m : Meeting) :
    (expireStale now t m).seller_id = m.seller_id := by
  unfold expireStale; split <;> rfl

theorem expireStale_requestor_id (now : Int) (t : Meeting → Bool) (m : Meeting) :
    (expireStale now t m).requestor_id = m.requestor_id := by
  unfold expireStale; split <;> rfl

theorem buyerTouches_expire (uid : Nat) (now : Int) (t : Meeting → Bool) (m : Meeting) :
    buyerTouches uid (expireStale now t m) = buyerTouches uid m := by
  unfold buyerTouches
  rw [expireStale_buyer_id, expireStale_requestor_id]

theorem sellerTouches_expire (sid : Nat) (now : Int) (t : Meeting → Bool) (m : Meeting) :
    sellerTouches sid (expireStale now t m) = sellerTouches sid m := by
  unfold sellerTouches
  rw [expireStale_seller_id, expireStale_requestor_id]

theorem stale_iff (now : Int) (m : Meeting) :
    isStale now m = true ↔ staleByClaim now m := by
  unfold isStale staleByClaim
  cases h : m.created_at with
  | none => simp [h]
  | some c => simp [h]

theorem pending_not_accepted (s : String) (h : isPendingStatus s = true) :
    isAcceptedStatus s = false := by
  simp only [isPendingStatus, Bool.or_eq_true, beq_iff_eq] at h
  rcases h with rfl | rfl <;> decide

theorem forall2_sweep (now : Int) (touch : Meeting → Bool) (l : List Meeting) :
    List.Forall₂ (sweepRel now touch) l (l.map (expireStale now touch)) := by
  rw [List.forall₂_map_right_iff]
  apply List.forall₂_same.2
  intro m _
  unfold sweepRel expireStale
  by_cases hc : (touch m && isPendingStatus m.status && isStale now m) = true
  · rw [if_pos hc]
    left
    simp only [Bool.and_eq_true] at hc
    exact ⟨rfl, hc.1.1, hc.1.2, (stale_iff now m).1 hc.2⟩
  · rw [if_neg hc]
    right
    refine ⟨rfl, ?_⟩
    rintro ⟨ht, hp, hst⟩
    refine hc ?_
    rw [ht, hp, (stale_iff now m).2 hst]
    rfl

theorem status_update_status (m : Meeting) (s : String) :
    ({ m with status := s } : Meeting).status = s := rfl

theorem pend_expired : isPendingStatus "expired" = false := by decide

theorem acc_expired : isAcceptedStatus "expired" = false := by decide

theorem countP_pending_expire (now : Int) (touch : Meeting → Bool)
    (ht : ∀ m, touch (expireStale now touch m) = touch m) (l : List Meeting) :
    (l.map (expireStale now touch)).countP
        (fun m => touch m && isPendingStatus m.status) =
      l.countP
        (fun m => touch m && (isPendingStatus m.status && !(isStale now m))) := by
  rw [List.countP_map]
  apply countP_congr_mem
  intro m _
  show (touch (expireStale now touch m) &&
      isPendingStatus (expireStale now touch m).status) =
    (touch m && (isPendingStatus m.status && !(isStale now m)))
  rw [ht]
  unfold expireStale
  cases htt : touch m <;> cases hp : isPendingStatus m.status <;>
    cases hst : isStale now m <;>
      simp [status_update_status, pend_expired, htt, hp, hst]

theorem countP_accepted_expire (now : Int) (touch : Meeting → Bool)
    (ht : ∀ m, touch (expireStale now touch m) = touch m) (l : List Meeting) :
    (l.map (expireStale now touch)).countP
        (fun m => touch m && isAcceptedStatus m.status) =
      l.countP (fun m => touch m && isAcceptedStatus m.status) := by
  rw [List.countP_map]
  apply countP_congr_mem
  intro m _
  show (touch (expireStale now touch m) &&
      isAcceptedStatus (expireStale now touch m).status) =
    (touch m && isAcceptedStatus m.status)
  rw [ht]
  unfold expireStale
  cases htt : touch m <;> cases hp : isPendingStatus m.status <;>
    cases hst : isStale now m <;>
      first
      | (have hacc := pending_not_accepted m.status hp
         simp [status_update_status, acc_expired, htt, hp, hst, hacc])
      | simp [status_update_status, acc_expired, htt, hp, hst]

theorem countP_active_expire (now : Int) (touch : Meeting → Bool)
    (ht : ∀ m, touch (expireStale now touch m) = touch m) (l : List Meeting) :
    (l.map (expireStale now touch)).countP
        (fun m => touch m && (isAcceptedStatus m.status || isPendingStatus m.status)) =
      l.countP
        (fun m => touch m &&
          (isAcceptedStatus m.status || (isPendingStatus m.status && !(isStale now m)))) := by
  rw [List.countP_map]
  apply countP_congr_mem
  intro m _
  show (touch (expireStale now touch m) &&
      (isAcceptedStatus (expireStale now touch m).status ||
        isPendingStatus (expireStale now touch m).status)) =
    (touch m &&
      (isAcceptedStatus m.status || (isPendingStatus m.status && !(isStale now m))))
  rw [ht]
  unfold expireStale
  cases htt : touch m <;> cases hp : isPendingStatus m.status <;>
    cases hst : isStale now m <;>
      first
      | (have hacc := pending_not_accepted m.status hp
         simp [status_update_status, acc_expired, pend_expired, htt, hp, hst, hacc])
      | simp [status_update_status, acc_expired, pend_expired, htt, hp, hst]

/-- C3: each single-user quota calculator first expires exactly the stale
PENDING meetings naming the user (as the respective party or as requestor),
issues at most one commit for the whole sweep, and the pending/active counts
it then reports exclude every such meeting. -/
theorem c3_expiry_sweep (now : Int) (db : DB) (uid : Nat) (profile : BuyerProfile) :
    (List.Forall₂ (sweepRel now (buyerTouches uid)) db.meetings
        (calculate_buyer_meeting_quota now db uid profile).1 ∧
      (calculate_buyer_meeting_quota now db uid profile).2.1 ≤ 1 ∧
      ∀ q, (calculate_buyer_meeting_quota now db uid profile).2.2 = some q →
        q.buyerPendingMeetingRequestCount =
          db.meetings.countP
            (fun m => buyerTouches uid m &&
              (isPendingStatus m.status && !(isStale now m))) ∧
        q.currentMeetingRequestCount =
          db.meetings.countP
            (fun m => buyerTouches uid m &&
              (isAcceptedStatus m.status ||
                (isPendingStatus m.status && !(isStale now m)))) ∧
        q.currentBuyerAcceptedMeetingCount =
          db.meetings.countP
            (fun m => buyerTouches uid m && isAcceptedStatus m.status)) ∧
    (List.Forall₂ (sweepRel now (sellerTouches uid)) db.meetings
        (calculate_seller_meeting_quota now db uid).1 ∧
      (calculate_seller_meeting_quota now db uid).2.1 ≤ 1 ∧
      ∀ q, (calculate_seller_meeting_quota now db uid).2.2 = some q →
        q.sellerPendingMeetingRequestCount =
          db.meetings.countP
            (fun m => sellerTouches uid m &&
              (isPendingStatus m.status && !(isStale now m))) ∧
        q.currentMeetingRequestCount =
          db.meetings.countP
            (fun m => sellerTouches uid m &&
              (isAcceptedStatus m.status ||
                (isPendingStatus m.status && !(isStale now m)))) ∧
        q.currentSellerAcceptedMeetingCount =
          db.meetings.countP
            (fun m => sellerTouches uid m && isAcceptedStatus m.status)) := by
  have htb : ∀ m, buyerTouches uid (expireStale now (buyerTouches uid) m) =
      buyerTouches uid m := fun m => buyerTouches_expire uid now _ m
  have hts : ∀ m, sellerTouches uid (expireStale now (sellerTouches uid) m) =
      sellerTouches uid m := fun m => sellerTouches_expire uid now _ m
  constructor
  · refine ⟨?_, ?_, ?_⟩
    · rw [calc_buyer_fst]
      exact forall2_sweep now (buyerTouches uid) db.meetings
    · rw [calc_buyer_commits]
      split <;> omega
    · intro q hq
      rw [calc_buyer_result] at hq
      cases hr : resolveFromCat (getSetting db "max_seller_attendees_per_day")
          (buyerCatMax db profile) with
      | none => rw [hr] at hq; simp at hq
      | some d =>
        rw [hr] at hq
        simp only [Option.some.injEq] at hq
        subst hq
        refine ⟨?_, ?_, ?_⟩
        · show (db.meetings.map (expireStale now (buyerTouches uid))).countP
              (fun m => buyerTouches uid m && isPendingStatus m.status) = _
          rw [countP_pending_expire now _ htb]
        · show (db.meetings.map (expireStale now (buyerTouches uid))).countP
              (fun m => buyerTouches uid m &&
                (isAcceptedStatus m.status || isPendingStatus m.status)) = _
          rw [countP_active_expire now _ htb]
        · show (db.meetings.map (expireStale now (buyerTouches uid))).countP
              (fun m => buyerTouches uid m && isAcceptedStatus m.status) = _
          rw [countP_accepted_expire now _ htb]
  · refine ⟨?_, ?_, ?_⟩
    · rw [calc_seller_fst]
      exact forall2_sweep now (sellerTouches uid) db.meetings
    · rw [calc_seller_commits]
      split <;> omega
    · intro q hq
      rw [calc_seller_result] at hq
      cases hr : defaultMaxPerAttendee db with
      | none => rw [hr] at hq; simp at hq
      | some d =>
        rw [hr] at hq
        simp only [Option.some.injEq] at hq
        subst hq
        refine ⟨?_, ?_, ?_⟩
        · show (db.meetings.map (expireStale now (sellerTouches uid))).countP
              (fun m => sellerTouches uid m && isPendingStatus m.status) = _
          rw [countP_pending_expire now _ hts]
        · show (db.meetings.map (expireStale now (sellerTouches uid))).countP
              (fun m => sellerTouches uid m &&
                (isAcceptedStatus m.status || isPendingStatus m.status)) = _
          rw [countP_active_expire now _ hts]
        · show (db.meetings.map (expireStale now (sellerTouches uid))).countP
              (fun m => sellerTouches uid m && isAcceptedStatus m.status) = _
          rw [countP_accepted_expire now _ hts]

theorem c3_witness :
    (calculate_buyer_meeting_quota 200000 c3DB 1 c3P).2.2 = some c3Q ∧
    c3Q.buyerPendingMeetingRequestCount =
      c3DB.meetings.countP
        (fun m => buyerTouches 1 m &&
          (isPendingStatus m.status && !(isStale 200000 m))) ∧
    (calculate_buyer_meeting_quota 200000 c3DB 1 c3P).2.1 ≤ 1 :=
  ⟨by decide,
   ((c3_expiry_sweep 200000 c3DB 1 c3P).1.2.2 c3Q (by decide)).1,
   (c3_expiry_sweep 200000 c3DB 1 c3P).1.2.1⟩

theorem pending_upper (s : String) (h : isPendingStatus s = true) :
    pyUpper s = "PENDING" := by
  simp only [isPendingStatus, Bool.or_eq_true, beq_iff_eq] at h
  rcases h with rfl | rfl <;> decide

theorem accepted_upper (s : String) (h : isAcceptedStatus s = true) :
    pyUpper s = "ACCEPTED" := by
  simp only [isAcceptedStatus, Bool.or_eq_true, beq_iff_eq] at h
  rcases h with rfl | rfl <;> decide

theorem batch_upper_pending (m : Meeting) (h2 : canonicalStatus m.status) :
    (batchStatusUpper m == "PENDING") = isPendingStatus m.status := by
  unfold batchStatusUpper
  rcases h2 with h | h | h | h | ⟨hp, ha⟩
  · rw [h]; decide
  · rw [h]; decide
  · rw [h]; decide
  · rw [h]; decide
  · have hp' : isPendingStatus m.status = false := by
      cases hps : isPendingStatus m.status
      · rfl
      · exact absurd (pending_upper m.status hps) hp
    rw [hp']
    by_cases hempty : (m.status == "") = true
    · rw [if_pos hempty]; decide
    · rw [if_neg hempty]
      exact beq_eq_false_iff_ne.2 hp

theorem batch_upper_accepted (m : Meeting) (h2 : canonicalStatus m.status) :
    (batchStatusUpper m == "ACCEPTED") = isAcceptedStatus m.status := by
  unfold batchStatusUpper
  rcases h2 with h | h | h | h | ⟨hp, ha⟩
  · rw [h]; decide
  · rw [h]; decide
  · rw [h]; decide
  · rw [h]; decide
  · have ha' : isAcceptedStatus m.status = false := by
      cases has : isAcceptedStatus m.status
      · rfl
      · exact absurd (accepted_upper m.status has) ha
    rw [ha']
    by_cases hempty : (m.status == "") = true
    · rw [if_pos hempty]; decide
    · rw [if_neg hempty]
      exact beq_eq_false_iff_ne.2 ha

theorem canonical_expired : canonicalStatus "expired" := by
  right; right; right; right; exact ⟨by decide, by decide⟩

theorem c1_pointwise (now : Int) (ids : List Nat) (u : Nat)
    (hu : ids.contains u = true) (m : Meeting)
    (h1 : m.requestor_id = u → m.buyer_id = u)
    (h2 : canonicalStatus m.status) :
    ((buyerTouches u (expireStale now (buyerTouches u) m) &&
        isPendingStatus (expireStale now (buyerTouches u) m).status) =
      ((batchStatusUpper (expireStale now (fun x => ids.contains x.buyer_id) m) == "PENDING") &&
        (ids.contains (expireStale now (fun x => ids.contains x.buyer_id) m).buyer_id &&
          ((expireStale now (fun x => ids.contains x.buyer_id) m).buyer_id == u)))) ∧
    ((buyerTouches u (expireStale now (buyerTouches u) m) &&
        isAcceptedStatus (expireStale now (buyerTouches u) m).status) =
      ((batchStatusUpper (expireStale now (fun x => ids.contains x.buyer_id) m) == "ACCEPTED") &&
        (ids.contains (expireStale now (fun x => ids.contains x.buyer_id) m).buyer_id &&
          ((expireStale now (fun x => ids.contains x.buyer_id) m).buyer_id == u)))) ∧
    ((buyerTouches u (expireStale now (buyerTouches u) m) &&
        (isAcceptedStatus (expireStale now (buyerTouches u) m).status ||
          isPendingStatus (expireStale now (buyerTouches u) m).status)) =
      (((batchStatusUpper (expireStale now (fun x => ids.contains x.buyer_id) m) == "PENDING") ||
          (batchStatusUpper (expireStale now (fun x => ids.contains x.buyer_id) m) == "ACCEPTED")) &&
        (ids.contains (expireStale now (fun x => ids.contains x.buyer_id) m).buyer_id &&
          ((expireStale now (fun x => ids.contains x.buyer_id) m).buyer_id == u)))) := by
  have htb : buyerTouches u (expireStale now (buyerTouches u) m) =
      buyerTouches u m := buyerTouches_expire u now _ m
  by_cases hbe : m.buyer_id = u
  · have hcont : ids.contains m.buyer_id = true := by rw [hbe]; exact hu
    have hbequ : (m.buyer_id == u) = true := by rw [hbe]; exact beq_self_eq_true u
    have htouch : buyerTouches u m = true := by
      unfold buyerTouches; rw [hbequ]; rfl
    have hsame : expireStale now (fun x => ids.contains x.buyer_id) m =
        expireStale now (buyerTouches u) m := by
      unfold expireStale
      simp only [htouch, hcont]
    have hcanf : canonicalStatus (expireStale now (buyerTouches u) m).status := by
      unfold expireStale
      split
      · rw [status_update_status]; exact canonical_expired
      · exact h2
    rw [hsame, expireStale_buyer_id now (buyerTouches u) m, htb, htouch, hcont,
      hbequ, batch_upper_pending _ hcanf, batch_upper_accepted _ hcanf]
    refine ⟨by simp, by simp, ?_⟩
    cases ha : isAcceptedStatus (expireStale now (buyerTouches u) m).status <;>
      cases hp : isPendingStatus (expireStale now (buyerTouches u) m).status <;>
        simp [ha, hp]
  · have hreqne : m.requestor_id ≠ u := fun hr => hbe (h1 hr)
    have hbeqf : (m.buyer_id == u) = false := beq_eq_false_iff_ne.2 hbe
    have hreqf : (m.requestor_id == u) = false := beq_eq_false_iff_ne.2 hreqne
    have htouchf : buyerTouches u m = false := by
      unfold buyerTouches; rw [hbeqf, hreqf]; rfl
    rw [htb, htouchf, expireStale_buyer_id now _ m, hbeqf]
    refine ⟨by simp, by simp, by simp⟩

theorem find?_filter_of_imp {α : Type} (l : List α) (p q : α → Bool)
    (h : ∀ a, p a = true → q a = true) :
    (l.filter q).find? p = l.find? p := by
  induction l with
  | nil => rfl
  | cons a t ih =>
    by_cases hq : q a = true
    · rw [List.filter_cons_of_pos hq]
      by_cases hp : p a = true
      · rw [List.find?_cons_of_pos _ hp, List.find?_cons_of_pos _ hp]
      · have hp' : p a = false := by
          cases hpa : p a
          · rfl
          · exact absurd hpa hp
        rw [List.find?_cons_of_neg _ (by simp [hp']),
          List.find?_cons_of_neg _ (by simp [hp']), ih]
    · have hq' : q a = false := by
        cases hqa : q a
        · rfl
        · exact absurd hqa hq
      have hp' : p a = false := by
        cases hpa : p a
        · rfl
        · exact absurd (h a hpa) hq
      rw [List.filter_cons_of_neg (by simp [hq']),
        List.find?_cons_of_neg _ (by simp [hp']), ih]

theorem batch_catMax_eq (db : DB) (profiles : List BuyerProfile)
    (p : BuyerProfile) (hp : p ∈ profiles) :
    batchBuyerCatMax db
        (profiles.filterMap
          (fun x => if pyTruthyOptNat x.category_id then x.category_id else none))
        p =
      buyerCatMax db p := by
  unfold batchBuyerCatMax buyerCatMax
  by_cases ht : pyTruthyOptNat p.category_id = true
  · obtain ⟨cid, hcid⟩ : ∃ cid, p.category_id = some cid := by
      cases h : p.category_id with
      | none => rw [h] at ht; simp [pyTruthyOptNat] at ht
      | some c => exact ⟨c, rfl⟩
    have hmem : cid ∈ profiles.filterMap
        (fun x => if pyTruthyOptNat x.category_id then x.category_id else none) := by
      refine List.mem_filterMap.2 ⟨p, hp, ?_⟩
      rw [if_pos ht, hcid]
    have himp : ∀ c : BuyerCategory, (some c.id == p.category_id) = true →
        ((profiles.filterMap
          (fun x => if pyTruthyOptNat x.category_id then x.category_id else none)).contains
          c.id) = true := by
      intro c hc
      rw [hcid] at hc
      have : c.id = cid := by simpa using hc
      subst this
      exact List.elem_eq_true_of_mem hmem
    rw [find?_filter_of_imp _ _ _ himp]
    cases hf : db.categories.find? (fun c => some c.id == p.category_id) with
    | none => simp [ht, hf]
    | some cat => simp [ht, hf]
  · have ht' : pyTruthyOptNat p.category_id = false := by
      cases h : pyTruthyOptNat p.category_id
      · rfl
      · exact absurd h ht
    simp [ht']

theorem resolve_isSome (db : DB) (mc : Option Int)
    (h4 : maxSettingParses db = true) :
    (resolveFromCat (getSetting db "max_seller_attendees_per_day") mc).isSome = true := by
  unfold maxSettingParses at h4
  unfold resolveFromCat
  cases hg : getSetting db "max_seller_attendees_per_day" with
  | none =>
    cases mc with
    | none => simp
    | some v => by_cases hv : v < 0 <;> simp [hv]
  | some s =>
    rw [hg] at h4
    have h4' : (pyInt s.value).isSome = true := by simpa using h4
    cases mc with
    | none => simpa using h4'
    | some v => by_cases hv : v < 0 <;> simp [hv, h4']

theorem step_eq_single (now : Int) (db : DB) (profiles : List BuyerProfile)
    (h1 : ∀ m ∈ db.meetings, ∀ x ∈ profiles,
      m.requestor_id = x.user_id → m.buyer_id = x.user_id)
    (h2 : ∀ m ∈ db.meetings, canonicalStatus m.status)
    (h4 : maxSettingParses db = true)
    (p : BuyerProfile) (hp : p ∈ profiles) :
    batchBuyerStep db
        (profiles.filterMap
          (fun x => if pyTruthyOptNat x.category_id then x.category_id else none))
        (getSetting db "max_seller_attendees_per_day")
        (db.meetings.map
          (expireStale now
            (fun m => (profiles.map (fun x => x.user_id)).contains m.buyer_id)))
        (profiles.map (fun x => x.user_id)) p =
      (calculate_buyer_meeting_quota now db p.user_id p).2.2 ∧
    ((calculate_buyer_meeting_quota now db p.user_id p).2.2).isSome = true := by
  have hu : (profiles.map (fun x => x.user_id)).contains p.user_id = true :=
    List.elem_eq_true_of_mem (List.mem_map_of_mem _ hp)
  have hpw := fun (m : Meeting) (hm : m ∈ db.meetings) =>
    c1_pointwise now (profiles.map (fun x => x.user_id)) p.user_id hu m
      (fun hr => h1 m hm p hp hr) (h2 m hm)
  have hpend :
      ((db.meetings.map
          (expireStale now
            (fun m => (profiles.map (fun x => x.user_id)).contains m.buyer_id))).filter
        (fun m => (profiles.map (fun x => x.user_id)).contains m.buyer_id &&
          m.buyer_id == p.user_id)).countP
        (fun m => batchStatusUpper m == "PENDING") =
      (db.meetings.map (expireStale now (buyerTouches p.user_id))).countP
        (fun m => buyerTouches p.user_id m && isPendingStatus m.status) := by
    rw [List.countP_filter, List.countP_map, List.countP_map]
    apply countP_congr_mem
    intro m hm
    exact ((hpw m hm).1).symm
  have hacc :
      ((db.meetings.map
          (expireStale now
            (fun m => (profiles.map (fun x => x.user_id)).contains m.buyer_id))).filter
        (fun m => (profiles.map (fun x => x.user_id)).contains m.buyer_id &&
          m.buyer_id == p.user_id)).countP
        (fun m => batchStatusUpper m == "ACCEPTED") =
      (db.meetings.map (expireStale now (buyerTouches p.user_id))).countP
        (fun m => buyerTouches p.user_id m && isAcceptedStatus m.status) := by
    rw [List.countP_filter, List.countP_map, List.countP_map]
    apply countP_congr_mem
    intro m hm
    exact ((hpw m hm).2.1).symm
  have hact :
      ((db.meetings.map
          (expireStale now
            (fun m => (profiles.map (fun x => x.user_id)).contains m.buyer_id))).filter
        (fun m => (profiles.map (fun x => x.user_id)).contains m.buyer_id &&
          m.buyer_id == p.user_id)).countP
        (fun m => batchStatusUpper m == "PENDING" || batchStatusUpper m == "ACCEPTED") =
      (db.meetings.map (expireStale now (buyerTouches p.user_id))).countP
        (fun m => buyerTouches p.user_id m &&
          (isAcceptedStatus m.status || isPendingStatus m.status)) := by
    rw [List.countP_filter, List.countP_map, List.countP_map]
    apply countP_congr_mem
    intro m hm
    exact ((hpw m hm).2.2).symm
  simp only [batchBuyerStep]
  rw [calc_buyer_result, batch_catMax_eq db profiles p hp, hpend, hacc, hact]
  cases hr : resolveFromCat (getSetting db "max_seller_attendees_per_day")
      (buyerCatMax db p) with
  | none =>
    have := resolve_isSome db (buyerCatMax db p) h4
    rw [hr] at this
    simp at this
  | some d => exact ⟨rfl, rfl⟩

theorem processBuyerProfiles_cons (db : DB) (catIds : List Nat)
    (maxSetting : Option SystemSetting) (swept : List Meeting)
    (ids : List Nat) (p : BuyerProfile) (rest : List BuyerProfile) :
    processBuyerProfiles db catIds maxSetting swept ids (p :: rest) =
      match batchBuyerStep db catIds maxSetting swept ids p with
      | none => none
      | some q =>
        match processBuyerProfiles db catIds maxSetting swept ids rest with
        | none => none
        | some qs => some (q :: qs) := rfl

theorem process_profiles_eq (now : Int) (db : DB) (profiles : List BuyerProfile)
    (h1 : ∀ m ∈ db.meetings, ∀ x ∈ profiles,
      m.requestor_id = x.user_id → m.buyer_id = x.user_id)
    (h2 : ∀ m ∈ db.meetings, canonicalStatus m.status)
    (h4 : maxSettingParses db = true) :
    ∀ sub : List BuyerProfile, (∀ x ∈ sub, x ∈ profiles) →
      ∃ qs, processBuyerProfiles db
          (profiles.filterMap
            (fun x => if pyTruthyOptNat x.category_id then x.category_id else none))
          (getSetting db "max_seller_attendees_per_day")
          (db.meetings.map
            (expireStale now
              (fun m => (profiles.map (fun x => x.user_id)).contains m.buyer_id)))
          (profiles.map (fun x => x.user_id)) sub = some qs ∧
        qs.length = sub.length ∧
        ∀ i (hi : i < sub.length),
          qs[i]? =
            (calculate_buyer_meeting_quota now db (sub.get ⟨i, hi⟩).user_id
              (sub.get ⟨i, hi⟩)).2.2 := by
  intro sub
  induction sub with
  | nil =>
    intro _
    exact ⟨[], rfl, rfl, fun i hi => absurd hi (by simp)⟩
  | cons q rest ih =>
    intro hsub
    obtain ⟨hstep_eq, hsome⟩ :=
      step_eq_single now db profiles h1 h2 h4 q (hsub q (by simp))
    obtain ⟨qv, hqv⟩ := Option.isSome_iff_exists.1 hsome
    obtain ⟨qs, hqs, hlen, hidx⟩ := ih (fun x hx => hsub x (by simp [hx]))
    refine ⟨qv :: qs, ?_, by simp [hlen], ?_⟩
    · rw [processBuyerProfiles_cons, hstep_eq, hqv]
      dsimp only
      rw [hqs]
    · intro i hi
      cases i with
      | zero => simpa using hqv.symm
      | succ n => simpa using hidx n (Nat.lt_of_succ_lt_succ hi)

/-- C1 (amended): the batch calculator agrees, per buyer, with the
single-buyer calculator on every state in which (i) no listed buyer is the
requestor of a meeting whose buyer column names someone else, (ii) every
meeting status is canonically spelled, and (iii) the
`max_seller_attendees_per_day` setting, if present, is numeric. -/
theorem c1_batch_matches_single_amended (now : Int) (db : DB)
    (profiles : List BuyerProfile)
    (h1 : ∀ m ∈ db.meetings, ∀ x ∈ profiles,
      m.requestor_id = x.user_id → m.buyer_id = x.user_id)
    (h2 : ∀ m ∈ db.meetings, canonicalStatus m.status)
    (h4 : maxSettingParses db = true) :
    ∃ qs, (batch_calculate_buyer_meeting_quota now db profiles).2.2 = some qs ∧
      qs.length = profiles.length ∧
      ∀ i (hi : i < profiles.length),
        qs[i]? =
          (calculate_buyer_meeting_quota now db (profiles.get ⟨i, hi⟩).user_id
            (profiles.get ⟨i, hi⟩)).2.2 := by
  by_cases he : profiles = []
  · subst he
    exact ⟨[], rfl, rfl, fun i hi => absurd hi (by simp)⟩
  · have hne : profiles.isEmpty = false := by
      cases profiles with
      | nil => exact absurd rfl he
      | cons a t => rfl
    have hb : (batch_calculate_buyer_meeting_quota now db profiles).2.2 =
        processBuyerProfiles db
          (profiles.filterMap
            (fun x => if pyTruthyOptNat x.category_id then x.category_id else none))
          (getSetting db "max_seller_attendees_per_day")
          (db.meetings.map
            (expireStale now
              (fun m => (profiles.map (fun x => x.user_id)).contains m.buyer_id)))
          (profiles.map (fun x => x.user_id)) profiles := by
      simp [batch_calculate_buyer_meeting_quota, hne]
    rw [hb]
    exact process_profiles_eq now db profiles h1 h2 h4 profiles (fun _ hx => hx)

theorem c1_amended_witness :
    ∃ qs, (batch_calculate_buyer_meeting_quota 0 c1wDB [c1wP]).2.2 = some qs ∧
      qs.length = ([c1wP] : List BuyerProfile).length ∧
      ∀ i (hi : i < ([c1wP] : List BuyerProfile).length),
        qs[i]? =
          (calculate_buyer_meeting_quota 0 c1wDB
            (([c1wP] : List BuyerProfile).get ⟨i, hi⟩).user_id
            (([c1wP] : List BuyerProfile).get ⟨i, hi⟩)).2.2 :=
  c1_batch_matches_single_amended 0 c1wDB [c1wP] (by decide)
    (by
      intro m hm
      have hm' : m = mkM 1 1 3 1 "accepted" (some 0) := by
        simpa [c1wDB, emptyDB] using hm
      subst hm'
      exact Or.inr (Or.inr (Or.inl rfl)))
    (by decide)

theorem c1_counterexample :
    c1exDB.meetings = [mkM 1 2 3 1 "accepted" (some 0)] ∧ c1exP.user_id = 1 ∧
    ((batch_calculate_buyer_meeting_quota 0 c1exDB [c1exP]).2.2.map
      (fun qs => qs.map (fun q => q.currentBuyerAcceptedMeetingCount))) = some [0] ∧
    ((calculate_buyer_meeting_quota 0 c1exDB 1 c1exP).2.2.map
      (fun q => q.currentBuyerAcceptedMeetingCount)) = some 1 := by
  refine ⟨by decide, by decide, by decide, by decide⟩
